import Mathlib

/-!
Shallow embedding of the rviz_satellite aerial-map display
(src/src/aerialmap_display.cpp) together with the geodetic helpers its
header declares.  Machine doubles are embedded as exact reals, the float
error rate and the alpha property as exact rationals; the tile cache and
the TF frame lookups are external collaborators and enter each operation
as explicit parameters (a lookup result, a readiness function, an error
rate).  A quaternion is modelled by its action on vectors.
-/

namespace RvizSatellite

/-- Severity levels of rviz StatusProperty. -/
inductive StatusLevel
  | Ok
  | Warn
  | Error
deriving DecidableEq

/-- One status message as set by Display::setStatus (level, category, text). -/
structure Status where
  level : StatusLevel
  name : String
  text : String
deriving DecidableEq

/-- Integer tile-grid coordinates (TileCoordinate from the tile helpers). -/
structure TileCoordinate where
  x : ℤ
  y : ℤ
deriving DecidableEq

/-- Cache key of one tile: server string, grid coordinate and zoom
(TileId from the tile helpers; equality is structural over all fields). -/
structure TileId where
  tileServer : String
  coord : TileCoordinate
  zoom : ℤ
deriving DecidableEq

/-- Modelled from the spec: Area, the square neighborhood of
(2 * blocks + 1) ^ 2 tiles around a center tile; the Area type itself is
declared in a header that is not under src/.  It is stored through the
corners of the square. -/
structure Area where
  leftTop : TileCoordinate
  rightBottom : TileCoordinate
deriving DecidableEq

/-- Modelled from the spec: the Area constructor taking a center tile and
a radius in tiles. -/
def Area.ofCenter (center : TileId) (blocks : ℤ) : Area :=
  ⟨⟨center.coord.x - blocks, center.coord.y - blocks⟩,
   ⟨center.coord.x + blocks, center.coord.y + blocks⟩⟩

/-- An incoming NavSatFix position message (fields the display reads). -/
structure NavSatFix where
  latitude : ℝ
  longitude : ℝ
  frameId : String

/-- An Ogre 3-vector over exact reals. -/
structure Vec3 where
  x : ℝ
  y : ℝ
  z : ℝ

def Vec3.add (a b : Vec3) : Vec3 := ⟨a.x + b.x, a.y + b.y, a.z + b.z⟩

def Vec3.neg (a : Vec3) : Vec3 := ⟨-a.x, -a.y, -a.z⟩

def Vec3.sub (a b : Vec3) : Vec3 := ⟨a.x - b.x, a.y - b.y, a.z - b.z⟩

/-- One scene object slot (ManualObject plus its material texture unit):
the visibility flag and the texture name currently assigned to the
material.  Vertex data is render-engine detail outside the core. -/
structure ObjState where
  visible : Bool
  textureName : Option String
deriving DecidableEq

/-- The state of the AerialMapDisplay that the embedded operations read
and write.  The requests field logs every Area passed to
tileCache_.request, the purges field every Area passed to
tileCache_.purge, and statuses logs every setStatus call; scenePos and
sceneOri mirror the scene node position and orientation. -/
structure DisplayState where
  enabled : Bool
  tileUrl : String
  zoom : ℤ
  blocks : ℤ
  alpha : ℚ
  drawUnder : Bool
  dirty : Bool
  refFix : Option NavSatFix
  lastCenterTile : Option TileId
  tCentertileMap : Vec3
  objects : List ObjState
  requests : List Area
  purges : List Area
  statuses : List Status
  scenePos : Vec3
  sceneOri : Vec3 → Vec3

/-- Display::setStatus, modelled as appending to the status log. -/
def setStatus (level : StatusLevel) (name text : String) (s : DisplayState) :
    DisplayState :=
  { s with statuses := s.statuses ++ [⟨level, name, text⟩] }

/-- AerialMapDisplay::checkRequestErrorRate, the pure part: the status it
sets for the TileRequest category given the tile-server error rate. -/
def checkRequestErrorRate (errorRate : ℚ) : Status :=
  if 0.95 < errorRate then
    ⟨.Error, "TileRequest", "Few or no tiles received"⟩
  else if 0.3 < errorRate then
    ⟨.Warn, "TileRequest",
      "Not all requested tiles have been received. Possibly the server is throttling?"⟩
  else
    ⟨.Ok, "TileRequest", "OK"⟩

/-- Stateful wrapper of checkRequestErrorRate: sets the computed status. -/
def checkRequestErrorRateS (errorRate : ℚ) (s : DisplayState) : DisplayState :=
  let st := checkRequestErrorRate errorRate
  setStatus st.level st.name st.text s

/-- Modelled from the spec: fromWGSCoordinate with a real number type,
the fractional Web-Mercator tile index of a latitude/longitude (degrees)
at a zoom level; declared in a tile helper header that is not under
src/. -/
noncomputable def fromWGSCoordinate (lat lon : ℝ) (zoom : ℤ) : ℝ × ℝ :=
  let n : ℝ := (2 : ℝ) ^ zoom
  let latRad : ℝ := lat * Real.pi / 180
  ((lon + 180) / 360 * n,
   (1 - Real.log (Real.tan latRad + 1 / Real.cos latRad) / Real.pi) / 2 * n)

/-- Modelled from the spec: fromWGSCoordinate with the integer number
type, flooring the fractional tile index; declared in a tile helper
header that is not under src/. -/
noncomputable def fromWGSCoordinateInt (lat lon : ℝ) (zoom : ℤ) :
    TileCoordinate :=
  ⟨⌊(fromWGSCoordinate lat lon zoom).1⌋, ⌊(fromWGSCoordinate lat lon zoom).2⌋⟩

/-- The WGS84 equatorial earth radius in meters, a fixed constant. -/
noncomputable def earthRadius : ℝ := 6378137

/-- Modelled from the spec: zoomToResolution, the ground resolution in
meters per pixel at a latitude (degrees) and zoom,
(2 pi earthRadius cos latitude) / (tilePixelSize * 2 ^ zoom) with
tilePixelSize = 256; declared in a helper header that is not under
src/. -/
noncomputable def zoomToResolution (lat : ℝ) (zoom : ℤ) : ℝ :=
  2 * Real.pi * earthRadius * Real.cos (lat * Real.pi / 180) /
    (256 * (2 : ℝ) ^ zoom)

/-- AerialMapDisplay::getTileWH: the tile width/height in meters,
tile_w_h_px * resolution with tile_w_h_px = 256. -/
noncomputable def getTileWH (latitude : ℝ) (zoom : ℤ) : ℝ :=
  256 * zoomToResolution latitude zoom

/-- AerialMapDisplay::transformTileToMapFrame.  The getMapTransform
lookup of the NavSatFix frame relative to the map frame is an external
collaborator (rviz FrameManager) and enters as the lookup parameter: on
success it carries the translation and the orientation action of the
NavSatFix frame w.r.t. the map frame, on failure the error text. -/
noncomputable def transformTileToMapFrame (s : DisplayState)
    (lookup : Except String (Vec3 × (Vec3 → Vec3))) : DisplayState :=
  match s.refFix with
  | none => s
  | some fix =>
    match lookup with
    | .error e => setStatus .Error "Transform" e s
    | .ok (t_navsat_map, _o_navsat_map) =>
      let centerTile := fromWGSCoordinate fix.latitude fix.longitude s.zoom
      let centerTileOffsetX := centerTile.1 - ⌊centerTile.1⌋
      let centerTileOffsetY := 1 - (centerTile.2 - ⌊centerTile.2⌋)
      let tile_w_h_m := getTileWH fix.latitude s.zoom
      let translationAerialMapToNavSatFix : Vec3 :=
        ⟨centerTileOffsetX * tile_w_h_m, centerTileOffsetY * tile_w_h_m, 0⟩
      let translationNavSatFixToAerialMap :=
        Vec3.neg translationAerialMapToNavSatFix
      { s with tCentertileMap :=
          Vec3.add t_navsat_map translationNavSatFixToAerialMap }

/-- The metric sub-tile offset of a fix as the spec words it: the
fractional part of the tile index on x, one minus the fractional part on
y, both scaled by the tile edge length in meters at the latitude of the
fix and the given zoom. -/
noncomputable def specSubTileOffset (fix : NavSatFix) (zoom : ℤ) : Vec3 :=
  let idx := fromWGSCoordinate fix.latitude fix.longitude zoom
  ⟨Int.fract idx.1 * getTileWH fix.latitude zoom,
   (1 - Int.fract idx.2) * getTileWH fix.latitude zoom, 0⟩

/-- AerialMapDisplay::transformMapTileToFixedFrame.  The FrameManager
lookup of the map frame relative to the fixed frame enters as the lookup
parameter (translation and orientation action on success); errText is
the error text the display would derive on failure. -/
noncomputable def transformMapTileToFixedFrame (s : DisplayState)
    (lookup : Option (Vec3 × (Vec3 → Vec3))) (errText : String) :
    DisplayState :=
  match lookup with
  | some (t_fixed_map, o_fixed_map) =>
    let s1 := setStatus .Ok "Transform" "Transform OK" s
    let t_centertile_fixed := Vec3.add t_fixed_map (o_fixed_map s.tCentertileMap)
    { s1 with scenePos := t_centertile_fixed, sceneOri := o_fixed_map }
  | none => setStatus .Error "Transform" errText s

/-- AerialMapDisplay::createTileObjects: destroys the previous objects
and creates (2 blocks + 1) ^ 2 fresh invisible objects whose material
texture unit has no texture assigned yet. -/
def createTileObjects (s : DisplayState) : DisplayState :=
  let count := ((2 * s.blocks + 1) * (2 * s.blocks + 1)).toNat
  { s with objects := List.replicate count (ObjState.mk false none) }

/-- AerialMapDisplay::requestTileTextures: drops the request with an
error status when the tile URL is empty or no fix arrived yet; otherwise
logs the cache request for the Area around the center tile and marks the
scene dirty. -/
def requestTileTextures (s : DisplayState) : DisplayState :=
  if s.enabled = false then s
  else if s.tileUrl = "" then
    setStatus .Error "TileRequest" "Tile URL is not set" s
  else
    match s.lastCenterTile with
    | none => setStatus .Error "Message" "No NavSatFix received yet" s
    | some ct =>
      { s with requests := s.requests ++ [Area.ofCenter ct s.blocks],
               dirty := true }

/-- AerialMapDisplay::updateCenterTile: recomputes the center TileId from
the fix at the current zoom; when it equals the stored one the whole
update is skipped, otherwise the new id and fix are stored, tiles are
requested and the tile-to-map-frame transform is recomputed. -/
noncomputable def updateCenterTile (s : DisplayState) (msg : NavSatFix)
    (lookup : Except String (Vec3 × (Vec3 → Vec3))) : DisplayState :=
  if s.enabled = false then s
  else
    let tileCoordinates :=
      fromWGSCoordinateInt msg.latitude msg.longitude s.zoom
    let newCenterTileID : TileId := ⟨s.tileUrl, tileCoordinates, s.zoom⟩
    if s.lastCenterTile = some newCenterTileID then s
    else
      let s1 := { s with lastCenterTile := some newCenterTileID,
                         refFix := some msg }
      let s2 := requestTileTextures s1
      transformTileToMapFrame s2 lookup

/-- AerialMapDisplay::updateAlpha: stores the new alpha and, when the
display is enabled and the value changed, marks the scene dirty. -/
def updateAlpha (s : DisplayState) (alphaProp : ℚ) : DisplayState :=
  if alphaProp = s.alpha then s
  else
    let s1 := { s with alpha := alphaProp }
    if s1.enabled = false then s1
    else { s1 with dirty := true }

/-- AerialMapDisplay::updateZoom: on a changed zoom of an enabled
display, re-creates the tile objects and, when a reference fix is
stored, runs updateCenterTile on it. -/
noncomputable def updateZoom (s : DisplayState) (zoomProp : ℤ)
    (lookup : Except String (Vec3 × (Vec3 → Vec3))) : DisplayState :=
  if zoomProp = s.zoom then s
  else
    let s1 := { s with zoom := zoomProp }
    if s1.enabled = false then s1
    else
      let s2 := createTileObjects s1
      match s2.refFix with
      | some fix => updateCenterTile s2 fix lookup
      | none => s2

/-- The closed integer interval a..b as a list, in increasing order. -/
def intRangeIcc (a b : ℤ) : List ℤ :=
  (List.range (b + 1 - a).toNat).map fun i => a + (i : ℤ)

/-- The TileIds of an Area in the iteration order of assembleScene
(outer loop over x from leftTop.x to rightBottom.x, inner loop over y
from leftTop.y to rightBottom.y). -/
def areaTiles (server : String) (zoom : ℤ) (area : Area) : List TileId :=
  (intRangeIcc area.leftTop.x area.rightBottom.x).flatMap fun xx =>
    (intRangeIcc area.leftTop.y area.rightBottom.y).map fun yy =>
      ⟨server, ⟨xx, yy⟩, zoom⟩

/-- AerialMapDisplay::assembleScene.  The cache enters through the ready
function (the texture name of a Ready tile) and the current tile-server
error rate.  Skips unless enabled, dirty and a center tile is stored and
objects exist; otherwise clears the dirty flag, walks the Area pairing
each tile with the next object slot (hiding slots whose tile is not
ready, showing ready tiles with their texture), re-sets the dirty flag
when not all tiles were loaded, purges the cache outside the Area and
recomputes the tile-request status. -/
def assembleScene (s : DisplayState) (ready : TileId → Option String)
    (errorRate : ℚ) : DisplayState :=
  match s.lastCenterTile with
  | none => s
  | some ct =>
    if s.enabled = false ∨ s.dirty = false then s
    else if s.objects = [] then s
    else
      let s1 := { s with dirty := false }
      let area := Area.ofCenter ct s.blocks
      let tiles := areaTiles ct.tileServer ct.zoom area
      let slots := tiles.zip s1.objects
      let newObjs := slots.map fun p =>
        match ready p.1 with
        | none => { p.2 with visible := false }
        | some tex => { p.2 with visible := true, textureName := some tex }
      let loadedAllTiles := slots.all fun p => (ready p.1).isSome
      let s2 := { s1 with objects := newObjs ++ s1.objects.drop tiles.length }
      let s3 := if loadedAllTiles = false then { s2 with dirty := true } else s2
      let s4 := { s3 with purges := s3.purges ++ [area] }
      checkRequestErrorRateS errorRate s4

/-- A concrete fix at the origin, used to instantiate theorems. -/
noncomputable def fix0 : NavSatFix := ⟨0, 0, "gps"⟩

/-- A concrete display state used to instantiate theorems. -/
noncomputable def baseState : DisplayState where
  enabled := true
  tileUrl := "tiles://server"
  zoom := 16
  blocks := 1
  alpha := 7/10
  drawUnder := false
  dirty := false
  refFix := some fix0
  lastCenterTile := none
  tCentertileMap := ⟨0, 0, 0⟩
  objects := []
  requests := []
  purges := []
  statuses := []
  scenePos := ⟨0, 0, 0⟩
  sceneOri := id

/-- The concrete state with an empty tile URL. -/
noncomputable def emptyUrlState : DisplayState :=
  { baseState with tileUrl := "" }

/-- The concrete state whose stored center tile already matches the tile
of fix0 at the current zoom and tile URL. -/
noncomputable def sameTileState : DisplayState :=
  let ct : TileId :=
    ⟨baseState.tileUrl,
     fromWGSCoordinateInt fix0.latitude fix0.longitude baseState.zoom,
     baseState.zoom⟩
  { baseState with lastCenterTile := some ct }

/-- The concrete state ready for a scene-assembly pass: enabled, dirty,
one object slot and a stored 1-tile center Area. -/
noncomputable def assembleState : DisplayState :=
  { baseState with
      dirty := true
      blocks := 0
      lastCenterTile := some ⟨"u", ⟨5, 7⟩, 3⟩
      objects := [⟨false, none⟩] }

/-- A concrete one-tile cache readiness function. -/
def readyW : TileId → Option String :=
  fun id => if id = ⟨"u", ⟨5, 7⟩, 3⟩ then some "tex" else none

/-- C3: recomputing the tile-request status yields Error with the
few-or-no-tiles message for error rate strictly above 0.95, Warning
(throttling) for rate strictly above 0.3 but at most 0.95, and Ok
otherwise. -/
theorem checkRequestErrorRate_thresholds (r : ℚ) :
    (0.95 < r →
      checkRequestErrorRate r = ⟨.Error, "TileRequest", "Few or no tiles received"⟩) ∧
    (0.3 < r → r ≤ 0.95 →
      checkRequestErrorRate r =
        ⟨.Warn, "TileRequest",
          "Not all requested tiles have been received. Possibly the server is throttling?"⟩) ∧
    (r ≤ 0.3 →
      checkRequestErrorRate r = ⟨.Ok, "TileRequest", "OK"⟩) := by
  refine ⟨fun h1 => ?_, fun h2 h3 => ?_, fun h4 => ?_⟩
  · simp [checkRequestErrorRate, if_pos h1]
  · have : ¬ (0.95 : ℚ) < r := not_lt.mpr h3
    simp [checkRequestErrorRate, this, h2]
  · have h5 : ¬ (0.95 : ℚ) < r := by
      refine not_lt.mpr (le_trans h4 (by norm_num))
    have h6 : ¬ (0.3 : ℚ) < r := not_lt.mpr h4
    simp [checkRequestErrorRate, h5, h6]

/-- Witness for C3 at the concrete rates 1, 1/2 and 0. -/
theorem checkRequestErrorRate_thresholds_witness :
    checkRequestErrorRate 1 = ⟨.Error, "TileRequest", "Few or no tiles received"⟩ ∧
    checkRequestErrorRate (1/2) =
      ⟨.Warn, "TileRequest",
        "Not all requested tiles have been received. Possibly the server is throttling?"⟩ ∧
    checkRequestErrorRate 0 = ⟨.Ok, "TileRequest", "OK"⟩ :=
  ⟨(checkRequestErrorRate_thresholds 1).1 (by norm_num),
   (checkRequestErrorRate_thresholds (1/2)).2.1 (by norm_num) (by norm_num),
   (checkRequestErrorRate_thresholds 0).2.2 (by norm_num)⟩

/-- C8: for every latitude and zoom, getTileWH returns the ground
resolution at that latitude and zoom multiplied by the fixed tile pixel
size of 256; it is a pure function of exactly these two arguments, with
no cached state. -/
theorem getTileWH_formula (lat : ℝ) (zoom : ℤ) :
    getTileWH lat zoom = zoomToResolution lat zoom * 256 := by
  simp [getTileWH]
  ring

/-- C2: on a successful map-frame-to-fixed-frame lookup, the render-tick
composition places the scene at the lookup translation plus the lookup
rotation applied to the stored anchor, and sets the scene orientation to
the lookup rotation; hence for two lookups sharing the translation, the
output positions differ exactly by the two rotations applied to the
anchor. -/
theorem transformMapTileToFixedFrame_compose (s : DisplayState) (e : String)
    (t : Vec3) (R : Vec3 → Vec3) :
    ((transformMapTileToFixedFrame s (some (t, R)) e).scenePos =
        Vec3.add t (R s.tCentertileMap) ∧
      (transformMapTileToFixedFrame s (some (t, R)) e).sceneOri = R) ∧
    ∀ R2 : Vec3 → Vec3,
      Vec3.sub (transformMapTileToFixedFrame s (some (t, R)) e).scenePos
          (transformMapTileToFixedFrame s (some (t, R2)) e).scenePos =
        Vec3.sub (R s.tCentertileMap) (R2 s.tCentertileMap) := by
  refine ⟨⟨rfl, rfl⟩, fun R2 => ?_⟩
  simp only [transformMapTileToFixedFrame, setStatus, Vec3.add, Vec3.sub,
    Vec3.mk.injEq]
  refine ⟨by ring, by ring, by ring⟩

/-- C4: when the frame lookup from the fix frame to the map frame fails,
transformTileToMapFrame only reports an error status and returns; in
particular the previously stored anchor t_centertile_map is left
unchanged. -/
theorem transformTileToMapFrame_lookup_failure (s : DisplayState)
    (fix : NavSatFix) (e : String) (h : s.refFix = some fix) :
    transformTileToMapFrame s (.error e) = setStatus .Error "Transform" e s ∧
    (transformTileToMapFrame s (.error e)).tCentertileMap =
      s.tCentertileMap := by
  constructor
  · simp [transformTileToMapFrame, h]
  · simp [transformTileToMapFrame, h, setStatus]

/-- C5: an enabled display with an empty tile source string drops the
tile-texture request with an error status: no cache request is logged
and the state is otherwise untouched. -/
theorem requestTileTextures_empty_url (s : DisplayState)
    (h1 : s.enabled = true) (h2 : s.tileUrl = "") :
    requestTileTextures s = setStatus .Error "TileRequest" "Tile URL is not set" s ∧
    (requestTileTextures s).requests = s.requests := by
  constructor
  · simp [requestTileTextures, h1, h2]
  · simp [requestTileTextures, h1, h2, setStatus]

/-- Adding a negated vector is subtracting the vector. -/
theorem vec_add_neg (t v : Vec3) : Vec3.add t (Vec3.neg v) = Vec3.sub t v := by
  simp only [Vec3.add, Vec3.neg, Vec3.sub, Vec3.mk.injEq]
  refine ⟨by ring, by ring, by ring⟩

/-- The full state produced by transformTileToMapFrame on a successful
lookup: only the anchor changes, to the lookup translation minus the
sub-tile offset of the stored fix. -/
theorem transformTileToMapFrame_ok_eq (s : DisplayState) (fix : NavSatFix)
    (t : Vec3) (o : Vec3 → Vec3) (h : s.refFix = some fix) :
    transformTileToMapFrame s (.ok (t, o)) =
      { s with tCentertileMap := Vec3.sub t (specSubTileOffset fix s.zoom) } := by
  simp only [transformTileToMapFrame, h]
  rw [vec_add_neg]
  rfl

/-- C1: on a successful frame lookup, the anchor stored by
transformTileToMapFrame equals the vehicle-frame-to-map-frame
translation minus the metric sub-tile offset of the fix, the offset
being (fract of tile index x, one minus fract of tile index y, 0) scaled
by the tile edge length in meters at the latitude of the fix and the
current zoom. -/
theorem transformTileToMapFrame_anchor (s : DisplayState) (fix : NavSatFix)
    (t : Vec3) (o : Vec3 → Vec3) (h : s.refFix = some fix) :
    (transformTileToMapFrame s (.ok (t, o))).tCentertileMap =
      Vec3.sub t (specSubTileOffset fix s.zoom) := by
  rw [transformTileToMapFrame_ok_eq s fix t o h]

/-- Witness for C4 at a concrete state and error text. -/
theorem transformTileToMapFrame_lookup_failure_witness :
    transformTileToMapFrame baseState (.error "no tf") =
      setStatus .Error "Transform" "no tf" baseState ∧
    (transformTileToMapFrame baseState (.error "no tf")).tCentertileMap =
      baseState.tCentertileMap :=
  transformTileToMapFrame_lookup_failure baseState fix0 "no tf" rfl

/-- Witness for C5 at the concrete state with an empty tile URL. -/
theorem requestTileTextures_empty_url_witness :
    requestTileTextures emptyUrlState =
      setStatus .Error "TileRequest" "Tile URL is not set" emptyUrlState ∧
    (requestTileTextures emptyUrlState).requests = emptyUrlState.requests :=
  requestTileTextures_empty_url emptyUrlState rfl rfl

/-- Witness for C1 at a concrete state, fix and lookup result. -/
theorem transformTileToMapFrame_anchor_witness :
    (transformTileToMapFrame baseState (.ok (⟨1, 2, 3⟩, id))).tCentertileMap =
      Vec3.sub ⟨1, 2, 3⟩ (specSubTileOffset fix0 baseState.zoom) :=
  transformTileToMapFrame_anchor baseState fix0 ⟨1, 2, 3⟩ id rfl

/-- C9: an incoming fix whose derived center TileId (tile URL, floored
tile coordinates at the current zoom, zoom) equals the stored center
TileId makes updateCenterTile a no-op: the state, including the stored
fix, the anchor and the request log, is returned unchanged, whatever the
latitude and longitude of the fix are within the tile. -/
theorem updateCenterTile_same_tile_noop (s : DisplayState) (msg : NavSatFix)
    (lookup : Except String (Vec3 × (Vec3 → Vec3)))
    (h : s.lastCenterTile =
      some ⟨s.tileUrl,
            fromWGSCoordinateInt msg.latitude msg.longitude s.zoom,
            s.zoom⟩) :
    updateCenterTile s msg lookup = s := by
  unfold updateCenterTile
  by_cases he : s.enabled = false
  · simp [he]
  · simp [he, h]

/-- Witness for C9 at the concrete state whose stored center tile is the
tile of fix0. -/
theorem updateCenterTile_same_tile_noop_witness :
    updateCenterTile sameTileState fix0 (.error "e") = sameTileState :=
  updateCenterTile_same_tile_noop sameTileState fix0 (.error "e") (by rfl)

/-- Scanning pairs with a predicate on the first component equals
scanning the first list, when the second list is long enough. -/
theorem zip_all_fst {α β : Type} (l₁ : List α) (l₂ : List β) (p : α → Bool)
    (h : l₁.length ≤ l₂.length) :
    ((l₁.zip l₂).all fun q => p q.1) = l₁.all p := by
  induction l₁ generalizing l₂ with
  | nil => simp
  | cons a l ih =>
    cases l₂ with
    | nil => simp at h
    | cons b l₂ =>
      simp only [List.zip_cons_cons, List.all_cons]
      rw [ih l₂ (by simpa using h)]

/-- The objects list produced by a completed assembleScene pass. -/
theorem assembleScene_objects_eq (s : DisplayState)
    (ready : TileId → Option String) (rate : ℚ) (ct : TileId)
    (h1 : s.enabled = true) (h2 : s.dirty = true)
    (h3 : s.lastCenterTile = some ct) (h4 : s.objects ≠ []) :
    (assembleScene s ready rate).objects =
      ((areaTiles ct.tileServer ct.zoom (Area.ofCenter ct s.blocks)).zip
          s.objects).map
        (fun p =>
          match ready p.1 with
          | none => { p.2 with visible := false }
          | some tex => { p.2 with visible := true, textureName := some tex }) ++
      s.objects.drop
        (areaTiles ct.tileServer ct.zoom (Area.ofCenter ct s.blocks)).length := by
  unfold assembleScene
  simp only [h3, h1, h2, h4]
  simp only [checkRequestErrorRateS, setStatus]
  rw [if_neg (show ¬(true = false ∨ true = false) by simp), if_neg not_false]
  split <;> simp

/-- The dirty flag produced by a completed assembleScene pass. -/
theorem assembleScene_dirty_eq (s : DisplayState)
    (ready : TileId → Option String) (rate : ℚ) (ct : TileId)
    (h1 : s.enabled = true) (h2 : s.dirty = true)
    (h3 : s.lastCenterTile = some ct) (h4 : s.objects ≠ []) :
    (assembleScene s ready rate).dirty =
      !(((areaTiles ct.tileServer ct.zoom (Area.ofCenter ct s.blocks)).zip
          s.objects).all fun p => (ready p.1).isSome) := by
  unfold assembleScene
  simp only [h3, h1, h2, h4]
  simp only [checkRequestErrorRateS, setStatus]
  rw [if_neg (show ¬(true = false ∨ true = false) by simp), if_neg not_false]
  split <;> rename_i hb <;> simp_all
  exact fun a b hab => Option.isSome_iff_ne_none.mpr (hb a b hab)

/-- C10: a scene-assembly pass that runs to completion (enabled, dirty,
center tile stored, objects present and enough object slots for the
Area) leaves the dirty flag set exactly when some tile of the Area was
not ready in the cache, so assembly is retried until all tiles have
loaded and skipped once they have. -/
theorem assembleScene_dirty_flag (s : DisplayState)
    (ready : TileId → Option String) (rate : ℚ) (ct : TileId)
    (h1 : s.enabled = true) (h2 : s.dirty = true)
    (h3 : s.lastCenterTile = some ct) (h4 : s.objects ≠ [])
    (h5 : (areaTiles ct.tileServer ct.zoom (Area.ofCenter ct s.blocks)).length ≤
      s.objects.length) :
    (assembleScene s ready rate).dirty =
      !((areaTiles ct.tileServer ct.zoom (Area.ofCenter ct s.blocks)).all
        fun id => (ready id).isSome) := by
  rw [assembleScene_dirty_eq s ready rate ct h1 h2 h3 h4]
  exact congrArg (fun b => !b)
    (zip_all_fst (areaTiles ct.tileServer ct.zoom (Area.ofCenter ct s.blocks))
      s.objects (fun id => (ready id).isSome) h5)

/-- C6: in a completed scene-assembly pass, the object slot paired with
tile i of the Area ends invisible exactly when that tile is not ready in
the cache, and a ready tile makes its slot visible with that tile
texture assigned. -/
theorem assembleScene_visibility (s : DisplayState)
    (ready : TileId → Option String) (rate : ℚ) (ct : TileId) (i : ℕ)
    (tid : TileId) (obj : ObjState)
    (h1 : s.enabled = true) (h2 : s.dirty = true)
    (h3 : s.lastCenterTile = some ct) (h4 : s.objects ≠ [])
    (hi : (areaTiles ct.tileServer ct.zoom (Area.ofCenter ct s.blocks))[i]? =
      some tid)
    (hj : s.objects[i]? = some obj) :
    ((assembleScene s ready rate).objects[i]?.map ObjState.visible =
      some (ready tid).isSome) ∧
    ∀ tex, ready tid = some tex →
      (assembleScene s ready rate).objects[i]?.map ObjState.textureName =
        some (some tex) := by
  have hobj := assembleScene_objects_eq s ready rate ct h1 h2 h3 h4
  set tiles := areaTiles ct.tileServer ct.zoom (Area.ofCenter ct s.blocks) with ht
  have hzip : (tiles.zip s.objects)[i]? = some (tid, obj) := by
    rw [List.getElem?_zip_eq_some]
    exact ⟨hi, hj⟩
  have hilt : i < (tiles.zip s.objects).length :=
    (List.getElem?_eq_some_iff.mp hzip).1
  have hmap :
      ((tiles.zip s.objects).map
        (fun p =>
          match ready p.1 with
          | none => { p.2 with visible := false }
          | some tex =>
            { p.2 with visible := true, textureName := some tex }))[i]? =
      some (match ready tid with
        | none => { obj with visible := false }
        | some tex => { obj with visible := true, textureName := some tex }) := by
    rw [List.getElem?_map, hzip]
    rfl
  have happ : (assembleScene s ready rate).objects[i]? =
      some (match ready tid with
        | none => { obj with visible := false }
        | some tex => { obj with visible := true, textureName := some tex }) := by
    rw [hobj, List.getElem?_append_left, hmap]
    simpa using hilt
  refine ⟨?_, fun tex htex => ?_⟩
  · rw [happ]
    cases hr : ready tid <;> simp [hr]
  · rw [happ, htex]
    simp

/-- Witness for C6 at the concrete assembly state, slot 0 and a cache in
which the single Area tile is ready. -/
theorem assembleScene_visibility_witness :
    ((assembleScene assembleState readyW (0 : ℚ)).objects[0]?.map
        ObjState.visible = some (readyW ⟨"u", ⟨5, 7⟩, 3⟩).isSome) ∧
    ∀ tex, readyW ⟨"u", ⟨5, 7⟩, 3⟩ = some tex →
      (assembleScene assembleState readyW (0 : ℚ)).objects[0]?.map
          ObjState.textureName = some (some tex) :=
  assembleScene_visibility assembleState readyW 0 ⟨"u", ⟨5, 7⟩, 3⟩ 0
    ⟨"u", ⟨5, 7⟩, 3⟩ ⟨false, none⟩ rfl rfl rfl (by decide) (by decide)
    (by decide)

/-- Witness for C10 at the concrete assembly state and an empty cache. -/
theorem assembleScene_dirty_flag_witness :
    (assembleScene assembleState (fun _ => none) (0 : ℚ)).dirty =
      !((areaTiles "u" 3 (Area.ofCenter ⟨"u", ⟨5, 7⟩, 3⟩
          assembleState.blocks)).all
        fun id => ((fun _ => (none : Option String)) id).isSome) :=
  assembleScene_dirty_flag assembleState (fun _ => none) 0 ⟨"u", ⟨5, 7⟩, 3⟩
    rfl rfl rfl (by decide) (by decide)

/-- C7: an alpha change on an enabled display mutates only the stored
alpha and the dirty flag, leaving requests, objects, center tile and
transforms untouched; a zoom change re-creates the tile grid geometry
and, with a fix stored, a nonempty tile URL, a stored center tile at the
old zoom and a successful frame lookup, recomputes the center tile at
the new zoom, re-requests the tile Area and refreshes the
tile-to-map-frame anchor. -/
theorem updateAlpha_updateZoom_effects (s : DisplayState) (a : ℚ) (z : ℤ)
    (fix : NavSatFix) (t : Vec3) (o : Vec3 → Vec3) :
    (a ≠ s.alpha → s.enabled = true →
      updateAlpha s a = { s with alpha := a, dirty := true }) ∧
    (z ≠ s.zoom → s.enabled = true → s.refFix = some fix →
      s.tileUrl ≠ "" →
      (∀ tid, s.lastCenterTile = some tid → tid.zoom = s.zoom) →
      (updateZoom s z (.ok (t, o))).objects =
          List.replicate ((2 * s.blocks + 1) * (2 * s.blocks + 1)).toNat
            (ObjState.mk false none) ∧
        (updateZoom s z (.ok (t, o))).lastCenterTile =
          some ⟨s.tileUrl, fromWGSCoordinateInt fix.latitude fix.longitude z, z⟩ ∧
        (updateZoom s z (.ok (t, o))).requests =
          s.requests ++
            [Area.ofCenter
              ⟨s.tileUrl, fromWGSCoordinateInt fix.latitude fix.longitude z, z⟩
              s.blocks] ∧
        (updateZoom s z (.ok (t, o))).tCentertileMap =
          Vec3.sub t (specSubTileOffset fix z) ∧
        (updateZoom s z (.ok (t, o))).zoom = z ∧
        (updateZoom s z (.ok (t, o))).dirty = true) := by
  constructor
  · intro ha he
    simp [updateAlpha, ha, he]
  · intro hz he hfix hurl hlast
    have hchanged :
        ¬ (s.lastCenterTile =
          some ⟨s.tileUrl, fromWGSCoordinateInt fix.latitude fix.longitude z,
                z⟩) := by
      intro hEq
      exact hz (hlast _ hEq)
    have hz' : ¬ (z = s.zoom) := hz
    simp only [updateZoom, createTileObjects, updateCenterTile,
      requestTileTextures, transformTileToMapFrame, setStatus, if_neg hz',
      he, hfix, hurl, hchanged]
    simp [he, hfix, hurl, hchanged]
    rw [vec_add_neg]
    rfl

/-- Witness for C7 at the concrete base state, alpha 1/2 and zoom 15. -/
theorem updateAlpha_updateZoom_effects_witness :
    updateAlpha baseState (1/2) =
      { baseState with alpha := 1/2, dirty := true } ∧
    (updateZoom baseState 15 (.ok (⟨1, 2, 3⟩, id))).zoom = 15 ∧
    (updateZoom baseState 15 (.ok (⟨1, 2, 3⟩, id))).requests =
      baseState.requests ++
        [Area.ofCenter
          ⟨baseState.tileUrl,
           fromWGSCoordinateInt fix0.latitude fix0.longitude 15, 15⟩
          baseState.blocks] :=
  ⟨(updateAlpha_updateZoom_effects baseState (1/2) 15 fix0 ⟨1, 2, 3⟩ id).1
      (by norm_num [baseState]) rfl,
   ((updateAlpha_updateZoom_effects baseState (1/2) 15 fix0 ⟨1, 2, 3⟩ id).2
      (by decide) rfl rfl (by decide) (fun tid h => nomatch h)).2.2.2.2.1,
   ((updateAlpha_updateZoom_effects baseState (1/2) 15 fix0 ⟨1, 2, 3⟩ id).2
      (by decide) rfl rfl (by decide) (fun tid h => nomatch h)).2.2.1⟩

end RvizSatellite
